import Mathlib

/-!
Verification of the lead-capture backend (`src/main.py`) against its
natural-language specification.

The environment (`os.getenv`) is modelled as a record of optional strings;
Python truthiness of an optional string (`None` and `""` are falsy) is the
`truthy` function.  The external collaborators (the SendGrid client, the
Twilio client, the document store) are opaque in the source, so their
outcomes are parameters: a boolean "the provider call raised" for each
sender, and an `Except` value for `create_document`.  Handlers are pure
functions of the environment and those outcomes; each handler additionally
returns the list of collaborator calls it performed, in order, so that
"invoked exactly once" and "never invoked" are provable statements.
-/

namespace LeadIntake

/-- The environment variables read by `main.py`, each possibly unset. -/
structure Env where
  OWNER_EMAIL : Option String
  OWNER_WHATSAPP_TO : Option String
  SENDGRID_API_KEY : Option String
  SENDGRID_FROM_EMAIL : Option String
  TWILIO_ACCOUNT_SID : Option String
  TWILIO_AUTH_TOKEN : Option String
  TWILIO_WHATSAPP_FROM : Option String
  DATABASE_URL : Option String
  DATABASE_NAME : Option String

/-- Python truthiness of an optional string: `None` and `""` are falsy. -/
def truthy : Option String → Bool
  | none => false
  | some s => !s.isEmpty

/-- Python `v or d` for an optional string `v` and a string default `d`:
the default is used when `v` is `None` or empty. -/
def py_or_str (v : Option String) (d : String) : String :=
  match v with
  | none => d
  | some s => if s.isEmpty then d else s

/-- Python `a or b` on two optional strings (first truthy value wins). -/
def py_or_opt (a b : Option String) : Option String :=
  if truthy a then a else b

/-- Python string slice `s[:n]`: the first `n` characters. -/
def py_take (s : String) (n : Nat) : String :=
  ⟨s.data.take n⟩

/-- `_owner_contacts` from `main.py`: `(owner_email, owner_whatsapp_to)` with
the hardcoded defaults, the default applying only when the variable is unset
(`os.getenv(k, d)` semantics). -/
def owner_contacts (env : Env) : String × String :=
  (env.OWNER_EMAIL.getD ("krishpersonal6@gmail.com"),
   env.OWNER_WHATSAPP_TO.getD ("+917668222021"))

/-- Outcome of a notification sender: the boolean it returned, and whether
the provider-dispatch path (the body of the `try` block) was entered. -/
structure SendOutcome where
  returned : Bool
  dispatched : Bool
deriving DecidableEq, Repr

/-- `send_email_via_sendgrid` from `main.py`.  `providerFails` models the
opaque provider call (import, client construction, `sg.send`) raising an
exception. -/
def send_email_via_sendgrid (env : Env) (providerFails : Bool)
    (subject body : String) : SendOutcome :=
  let api_key := env.SENDGRID_API_KEY
  let _from_email := py_or_str (py_or_opt env.SENDGRID_FROM_EMAIL env.OWNER_EMAIL)
      ("krishpersonal6@gmail.com")
  let _to_email := (owner_contacts env).1
  let _subject := subject
  let _body := body
  if !truthy api_key then
    { returned := false, dispatched := false }
  else if providerFails then
    { returned := false, dispatched := true }
  else
    { returned := true, dispatched := true }

/-- The destination normalization inside `send_whatsapp_via_twilio`:
prepend the transport prefix unless the phone already starts with it. -/
def normalize_whatsapp_to (to_phone : String) : String :=
  if !to_phone.startsWith ("whatsapp:") then "whatsapp:" ++ to_phone else to_phone

/-- `send_whatsapp_via_twilio` from `main.py`.  `providerFails` models the
opaque Twilio call raising an exception. -/
def send_whatsapp_via_twilio (env : Env) (providerFails : Bool)
    (message : String) : SendOutcome :=
  let account_sid := env.TWILIO_ACCOUNT_SID
  let auth_token := env.TWILIO_AUTH_TOKEN
  let from_whatsapp := env.TWILIO_WHATSAPP_FROM
  let to_phone := (owner_contacts env).2
  let _to_whatsapp := normalize_whatsapp_to to_phone
  let _message := message
  if !(truthy account_sid && truthy auth_token && truthy from_whatsapp) then
    { returned := false, dispatched := false }
  else if providerFails then
    { returned := false, dispatched := true }
  else
    { returned := true, dispatched := true }

/-- A validated lead, as the handler receives it (`schemas.Lead`):
`name` and `phone` required, the rest optional. -/
structure Lead where
  name : String
  phone : String
  email : Option String
  selected_plan : Option String
  message : Option String
  source : Option String
deriving DecidableEq, Repr

/-- The notification body composed in `create_lead` (the f-string at
lines 137-146 of `main.py`), for a lead and its newly created id. -/
def notification_text (lead : Lead) (lead_id : String) : String :=
  "New gym lead\n" ++
  "Name: " ++ lead.name ++ "\n" ++
  "Phone: " ++ lead.phone ++ "\n" ++
  "Email: " ++ py_or_str lead.email ("-") ++ "\n" ++
  "Plan: " ++ py_or_str lead.selected_plan ("-") ++ "\n" ++
  "Message: " ++ py_or_str lead.message ("-") ++ "\n" ++
  "Source: " ++ py_or_str lead.source ("web") ++ "\n" ++
  "Lead ID: " ++ lead_id

/-- An external collaborator call made while handling a request. -/
inductive Call
  | store
  | email
  | whatsapp
deriving DecidableEq, Repr

/-- The JSON body returned by `create_lead` on success. -/
structure LeadResponse where
  ok : Bool
  id : String
  email_sent : Bool
  whatsapp_sent : Bool
deriving DecidableEq, Repr

/-- The HTTP-level result of a handler: a success body, or an
`HTTPException`-style error with status code and detail string. -/
inductive HandlerResult
  | success (r : LeadResponse)
  | httpError (status : Nat) (detail : String)
deriving DecidableEq, Repr

/-- `create_lead` from `main.py` (the `POST /api/leads` handler body, after
payload validation).  `storeResult` is the outcome of `create_document`:
`.ok id` or `.error msg` when it raises with string description `msg`.
The second component lists the collaborator calls in order. -/
def create_lead (env : Env) (storeResult : Except String String)
    (emailFails waFails : Bool) (lead : Lead) : HandlerResult × List Call :=
  match storeResult with
  | .error e => (.httpError 500 e, [Call.store])
  | .ok lead_id =>
    let subject := "New IronPulse Lead"
    let text := notification_text lead lead_id
    let email_sent := (send_email_via_sendgrid env emailFails subject text).returned
    let wa_sent := (send_whatsapp_via_twilio env waFails text).returned
    (.success { ok := true, id := lead_id, email_sent := email_sent,
                whatsapp_sent := wa_sent },
     [Call.store, Call.email, Call.whatsapp])

/-- A raw `POST /api/leads` JSON payload before validation: every field may
be missing. -/
structure RawPayload where
  name : Option String
  phone : Option String
  email : Option String
  selected_plan : Option String
  message : Option String
  source : Option String
deriving DecidableEq, Repr

/-- Modelled from the spec: the `Lead` pydantic schema (`schemas.py`) is not
under `src/`.  The spec requires only a syntactically valid address for the
optional email field; this checker demands a single at-sign separating a
non-empty local part from a non-empty domain that contains a dot. -/
def is_valid_email (s : String) : Bool :=
  match s.splitOn ("@") with
  | [lp, dp] => !lp.isEmpty && !dp.isEmpty && dp.contains ('.')
  | _ => false

/-- Modelled from the spec: structural validation of the inbound payload
(performed by FastAPI/pydantic from `schemas.Lead`, which is not under
`src/`).  Rejects when `name` or `phone` is missing or empty, or when the
`email` field is present but not a syntactically valid address; otherwise
produces the validated `Lead`. -/
def parse_lead (p : RawPayload) : Except String Lead :=
  match p.name with
  | none => .error ("field required: name")
  | some n =>
    if n.isEmpty then .error ("field required: name") else
    match p.phone with
    | none => .error ("field required: phone")
    | some ph =>
      if ph.isEmpty then .error ("field required: phone") else
      match p.email with
      | some em =>
        if !is_valid_email em then .error ("value is not a valid email address")
        else .ok { name := n, phone := ph, email := some em,
                   selected_plan := p.selected_plan, message := p.message,
                   source := p.source }
      | none =>
        .ok { name := n, phone := ph, email := none,
              selected_plan := p.selected_plan, message := p.message,
              source := p.source }

/-- The full `POST /api/leads` endpoint: validation (modelled from the spec,
reported as a 422 before any side effect) followed by `create_lead`. -/
def post_api_leads (env : Env) (storeResult : Except String String)
    (emailFails waFails : Bool) (p : RawPayload) : HandlerResult × List Call :=
  match parse_lead p with
  | .error detail => (.httpError 422 detail, [])
  | .ok lead => create_lead env storeResult emailFails waFails lead

/-- The JSON object returned by the `/test` diagnostics handler.
`database_url` and `database_name` start out as `null` in the source and are
therefore optional strings here. -/
structure TestResponse where
  backend : String
  database : String
  database_url : Option String
  database_name : Option String
  connection_status : String
  collections : List String
  email_provider : String
  whatsapp_provider : String
deriving DecidableEq, Repr

/-- An available database handle as `/test` observes it: `db.name` when the
attribute exists, and the outcome of `db.list_collection_names()` (a list of
names, or the string description of the exception it raised). -/
structure DbConn where
  name : Option String
  listResult : Except String (List String)
deriving Repr

/-- How the `from database import db` probe in `/test` can turn out. -/
inductive DbProbe
  | importError
  | otherError (msg : String)
  | dbNone
  | conn (c : DbConn)
deriving Repr

/-- `test_database` from `main.py` (the `GET /test` handler), as a function
of the environment and the database probe outcome.  It mirrors the source's
sequential construction: the initial dict, the `try` block, then the
unconditional overwrites of `database_url` / `database_name` and the two
provider-availability fields. -/
def test_database (env : Env) (probe : DbProbe) : TestResponse :=
  let r0 : TestResponse :=
    { backend := "✅ Running"
      database := "❌ Not Available"
      database_url := none
      database_name := none
      connection_status := "Not Connected"
      collections := []
      email_provider := ""
      whatsapp_provider := "" }
  let r1 : TestResponse :=
    match probe with
    | .importError =>
      { r0 with database := "❌ Database module not found (run enable-database first)" }
    | .otherError msg =>
      { r0 with database := "❌ Error: " ++ py_take msg 50 }
    | .dbNone =>
      { r0 with database := "⚠️  Available but not initialized" }
    | .conn c =>
      let r :=
        { r0 with database := "✅ Available"
                  database_url := some ("✅ Configured")
                  database_name := some (c.name.getD ("✅ Connected"))
                  connection_status := "Connected" }
      match c.listResult with
      | .ok cols =>
        { r with collections := cols.take 10
                 database := "✅ Connected & Working" }
      | .error e =>
        { r with database := "⚠️  Connected but Error: " ++ py_take e 50 }
  { r1 with
    database_url := some (if truthy env.DATABASE_URL then "✅ Set" else "❌ Not Set")
    database_name := some (if truthy env.DATABASE_NAME then "✅ Set" else "❌ Not Set")
    email_provider :=
      if truthy env.SENDGRID_API_KEY then "✅ SendGrid" else "❌ Not Configured"
    whatsapp_provider :=
      if truthy env.TWILIO_ACCOUNT_SID && truthy env.TWILIO_AUTH_TOKEN
         && truthy env.TWILIO_WHATSAPP_FROM
      then "✅ Twilio" else "❌ Not Configured" }

/-- The notification body exactly as the spec sentence behind C7 describes
it: one field per line in the fixed order, with the placeholder used when a
field is absent (and `web` when `source` is absent). -/
def claimed_notification_text (lead : Lead) (lead_id : String) : String :=
  "New gym lead" ++ "\n" ++
  ("Name: " ++ lead.name) ++ "\n" ++
  ("Phone: " ++ lead.phone) ++ "\n" ++
  ("Email: " ++ (match lead.email with | none => "-" | some e => e)) ++ "\n" ++
  ("Plan: " ++ (match lead.selected_plan with | none => "-" | some v => v)) ++ "\n" ++
  ("Message: " ++ (match lead.message with | none => "-" | some v => v)) ++ "\n" ++
  ("Source: " ++ (match lead.source with | none => "web" | some v => v)) ++ "\n" ++
  ("Lead ID: " ++ lead_id)

/-- The notification body as the amended C7 describes it: as above, except
that the placeholder (resp. the `web` default) is also used when the field
is present but equal to the empty string. -/
def amended_notification_text (lead : Lead) (lead_id : String) : String :=
  "New gym lead" ++ "\n" ++
  "Name: " ++ lead.name ++ "\n" ++
  "Phone: " ++ lead.phone ++ "\n" ++
  "Email: " ++ (match lead.email with
                | none => "-" | some e => if e.isEmpty then "-" else e) ++ "\n" ++
  "Plan: " ++ (match lead.selected_plan with
               | none => "-" | some v => if v.isEmpty then "-" else v) ++ "\n" ++
  "Message: " ++ (match lead.message with
                  | none => "-" | some v => if v.isEmpty then "-" else v) ++ "\n" ++
  "Source: " ++ (match lead.source with
                 | none => "web" | some v => if v.isEmpty then "web" else v) ++ "\n" ++
  "Lead ID: " ++ lead_id

/-- An environment with every variable unset. -/
def envNone : Env :=
  { OWNER_EMAIL := none, OWNER_WHATSAPP_TO := none, SENDGRID_API_KEY := none,
    SENDGRID_FROM_EMAIL := none, TWILIO_ACCOUNT_SID := none,
    TWILIO_AUTH_TOKEN := none, TWILIO_WHATSAPP_FROM := none,
    DATABASE_URL := none, DATABASE_NAME := none }

/-- An environment with every variable set to a non-empty value. -/
def envFull : Env :=
  { OWNER_EMAIL := some ("owner@example.com"),
    OWNER_WHATSAPP_TO := some ("+10000000000"),
    SENDGRID_API_KEY := some ("SG-key"),
    SENDGRID_FROM_EMAIL := some ("from@example.com"),
    TWILIO_ACCOUNT_SID := some ("AC-sid"),
    TWILIO_AUTH_TOKEN := some ("tok-1"),
    TWILIO_WHATSAPP_FROM := some ("whatsapp:+14155238886"),
    DATABASE_URL := some ("mongodb://h"),
    DATABASE_NAME := some ("db") }

/-- Like `envFull` but with the Twilio auth token unset. -/
def envNoToken : Env :=
  { envFull with TWILIO_AUTH_TOKEN := none }

/-- Evaluation of the transport-prefix check on the already-prefixed default
owner phone: `String.substrEq.loop` is defined by well-founded recursion, so
it is unfolded step by step through its equation lemma. -/
theorem startsWith_prefixed_owner :
    ("whatsapp:+917668222021".startsWith ("whatsapp:")) = true := by
  show (String.substrEq "whatsapp:+917668222021" 0 "whatsapp:" 0 9) = true
  rw [String.substrEq]
  simp only [Bool.and_eq_true]
  refine ⟨⟨by decide, by decide⟩, ?_⟩
  repeat'
    first
    | (rw [String.substrEq.loop.eq_def, dif_neg (by decide)])
    | (rw [String.substrEq.loop.eq_def, dif_pos (by decide)]
       simp only [Bool.and_eq_true]
       refine ⟨by decide, ?_⟩)

/-- Evaluation of the transport-prefix check on the bare default owner
phone: the first characters differ, so the comparison loop stops at once. -/
theorem startsWith_bare_owner :
    ("+917668222021".startsWith ("whatsapp:")) = false := by
  show (String.substrEq "+917668222021" 0 "whatsapp:" 0 9) = false
  rw [String.substrEq, String.substrEq.loop.eq_def, dif_pos (by decide)]
  simp only [show (("+917668222021".get 0 == "whatsapp:".get 0)) = false from by decide,
    Bool.false_and, Bool.and_false]

/-- C1: when `LeadStore.create` succeeds, `create_lead` returns
`{ok := true, id, email_sent, whatsapp_sent}` where `id` is the store's
identifier and the two flags are exactly the senders' boolean results, for
every combination of sender outcomes; the call trace shows the store and
each of the two senders invoked exactly once, with neither sender's
invocation or argument depending on the other's outcome. -/
theorem c1_success_response (env : Env) (emailFails waFails : Bool)
    (lead : Lead) (lead_id : String) :
    create_lead env (.ok lead_id) emailFails waFails lead =
      (HandlerResult.success
        { ok := true
          id := lead_id
          email_sent := (send_email_via_sendgrid env emailFails
            ("New IronPulse Lead") (notification_text lead lead_id)).returned
          whatsapp_sent := (send_whatsapp_via_twilio env waFails
            (notification_text lead lead_id)).returned },
       [Call.store, Call.email, Call.whatsapp]) ∧
    (create_lead env (.ok lead_id) emailFails waFails lead).2.count Call.email = 1 ∧
    (create_lead env (.ok lead_id) emailFails waFails lead).2.count Call.whatsapp = 1 :=
  ⟨rfl, rfl, rfl⟩

/-- C2: when `LeadStore.create` raises, `create_lead` aborts with an
HTTP 500 whose detail is the failure's string description, and the call
trace contains neither sender. -/
theorem c2_store_failure (env : Env) (emailFails waFails : Bool)
    (lead : Lead) (msg : String) :
    create_lead env (.error msg) emailFails waFails lead
      = (HandlerResult.httpError 500 msg, [Call.store]) ∧
    (create_lead env (.error msg) emailFails waFails lead).2.contains Call.email
      = false ∧
    (create_lead env (.error msg) emailFails waFails lead).2.contains Call.whatsapp
      = false :=
  ⟨rfl, rfl, rfl⟩

/-- C4: the email sender always returns a boolean (it is a total function
into `Bool`): the result is `true` exactly when the credential is truthy and
the provider call does not raise; an absent `SENDGRID_API_KEY` yields an
immediate `false` with no dispatch, and a provider exception is converted to
a `false` return. -/
theorem c4_email_sender_isolation (env : Env) (providerFails : Bool)
    (subject body : String) :
    (send_email_via_sendgrid env providerFails subject body).returned
      = (truthy env.SENDGRID_API_KEY && !providerFails) ∧
    (env.SENDGRID_API_KEY = none →
      send_email_via_sendgrid env providerFails subject body
        = { returned := false, dispatched := false }) ∧
    (providerFails = true →
      (send_email_via_sendgrid env providerFails subject body).returned = false) := by
  refine ⟨?_, ?_, ?_⟩
  · cases h : truthy env.SENDGRID_API_KEY <;> cases providerFails <;>
      simp [send_email_via_sendgrid, h]
  · intro hk
    simp [send_email_via_sendgrid, truthy, hk]
  · intro hp
    subst hp
    cases h : truthy env.SENDGRID_API_KEY <;> simp [send_email_via_sendgrid, h]

/-- Witness for C4 at a concrete environment with the credential absent and
the provider raising. -/
theorem c4_email_sender_isolation_witness :
    send_email_via_sendgrid envNone true ("s") ("b")
      = { returned := false, dispatched := false } ∧
    (send_email_via_sendgrid envNone true ("s") ("b")).returned = false :=
  ⟨(c4_email_sender_isolation envNone true ("s") ("b")).2.1 rfl,
   (c4_email_sender_isolation envNone true ("s") ("b")).2.2 rfl⟩

/-- C5: the messaging sender returns `true` only when all three Twilio
configuration values are truthy and the provider call does not raise; the
dispatch path is entered exactly when all three are truthy, and the absence
of any one yields `false` with no dispatch. -/
theorem c5_whatsapp_requires_full_config (env : Env) (providerFails : Bool)
    (message : String) :
    (send_whatsapp_via_twilio env providerFails message).returned
      = (truthy env.TWILIO_ACCOUNT_SID && truthy env.TWILIO_AUTH_TOKEN
          && truthy env.TWILIO_WHATSAPP_FROM && !providerFails) ∧
    (send_whatsapp_via_twilio env providerFails message).dispatched
      = (truthy env.TWILIO_ACCOUNT_SID && truthy env.TWILIO_AUTH_TOKEN
          && truthy env.TWILIO_WHATSAPP_FROM) ∧
    ((env.TWILIO_ACCOUNT_SID = none ∨ env.TWILIO_AUTH_TOKEN = none
        ∨ env.TWILIO_WHATSAPP_FROM = none) →
      send_whatsapp_via_twilio env providerFails message
        = { returned := false, dispatched := false }) := by
  refine ⟨?_, ?_, ?_⟩
  · cases h1 : truthy env.TWILIO_ACCOUNT_SID <;>
      cases h2 : truthy env.TWILIO_AUTH_TOKEN <;>
      cases h3 : truthy env.TWILIO_WHATSAPP_FROM <;>
      cases providerFails <;>
      simp [send_whatsapp_via_twilio, h1, h2, h3]
  · cases h1 : truthy env.TWILIO_ACCOUNT_SID <;>
      cases h2 : truthy env.TWILIO_AUTH_TOKEN <;>
      cases h3 : truthy env.TWILIO_WHATSAPP_FROM <;>
      cases providerFails <;>
      simp [send_whatsapp_via_twilio, h1, h2, h3]
  · intro h
    rcases h with hk | hk | hk <;> simp [send_whatsapp_via_twilio, truthy, hk]

/-- Witness for C5 at a concrete environment with the auth token absent. -/
theorem c5_whatsapp_requires_full_config_witness :
    send_whatsapp_via_twilio envNoToken false ("hello")
      = { returned := false, dispatched := false } :=
  (c5_whatsapp_requires_full_config envNoToken false ("hello")).2.2 (Or.inr (Or.inl rfl))

/-- C6: the destination normalization prepends the transport prefix if and
only if the owner phone does not already start with it; an already-prefixed
phone is used as-is. -/
theorem c6_no_double_prefixing (s : String) :
    (s.startsWith ("whatsapp:") = true → normalize_whatsapp_to s = s) ∧
    (s.startsWith ("whatsapp:") = false →
      normalize_whatsapp_to s = "whatsapp:" ++ s) := by
  constructor <;> intro h <;> simp [normalize_whatsapp_to, h]

/-- Witness for C6 at the default owner phone, in both its already-prefixed
and bare forms. -/
theorem c6_no_double_prefixing_witness :
    normalize_whatsapp_to ("whatsapp:+917668222021") = "whatsapp:+917668222021" ∧
    normalize_whatsapp_to ("+917668222021") = "whatsapp:" ++ "+917668222021" :=
  ⟨(c6_no_double_prefixing ("whatsapp:+917668222021")).1 startsWith_prefixed_owner,
   (c6_no_double_prefixing ("+917668222021")).2 startsWith_bare_owner⟩

/-- A payload missing the required `name` field. -/
def payloadNoName : RawPayload :=
  { name := none, phone := some ("+1555000111"), email := none,
    selected_plan := none, message := none, source := none }

/-- C3: a payload missing `name` or `phone`, or carrying a syntactically
invalid `email`, is rejected with a 422 validation error before any side
effect: the call trace is empty, so `LeadStore.create` is never reached.
The validation itself is modelled from the spec (`schemas.py` is not under
`src/`). -/
theorem c3_validation_rejects (env : Env) (storeResult : Except String String)
    (emailFails waFails : Bool) (p : RawPayload)
    (h : p.name = none ∨ p.phone = none ∨
         ∃ em, p.email = some em ∧ is_valid_email em = false) :
    (∃ detail, post_api_leads env storeResult emailFails waFails p
        = (HandlerResult.httpError 422 detail, [])) ∧
    (post_api_leads env storeResult emailFails waFails p).2.contains Call.store
      = false := by
  have herr : ∃ d, parse_lead p = Except.error d := by
    rcases h with hn | hph | ⟨em, he, hv⟩
    · exact ⟨"field required: name", by simp [parse_lead, hn]⟩
    · cases hn : p.name with
      | none => exact ⟨"field required: name", by simp [parse_lead, hn]⟩
      | some n =>
        by_cases hne : n.isEmpty = true
        · exact ⟨"field required: name", by simp [parse_lead, hn, hne]⟩
        · exact ⟨"field required: phone", by simp [parse_lead, hn, hne, hph]⟩
    · cases hn : p.name with
      | none => exact ⟨"field required: name", by simp [parse_lead, hn]⟩
      | some n =>
        by_cases hne : n.isEmpty = true
        · exact ⟨"field required: name", by simp [parse_lead, hn, hne]⟩
        · cases hph : p.phone with
          | none => exact ⟨"field required: phone", by simp [parse_lead, hn, hne, hph]⟩
          | some ph =>
            by_cases hpe : ph.isEmpty = true
            · exact ⟨"field required: phone", by simp [parse_lead, hn, hne, hph, hpe]⟩
            · exact ⟨"value is not a valid email address",
                by simp [parse_lead, hn, hne, hph, hpe, he, hv]⟩
  obtain ⟨d, hd⟩ := herr
  refine ⟨⟨d, ?_⟩, ?_⟩ <;> simp [post_api_leads, hd]

/-- Witness for C3 at a concrete payload with no `name`. -/
theorem c3_validation_rejects_witness :
    (∃ detail, post_api_leads envNone (.ok ("id-1")) false false payloadNoName
        = (HandlerResult.httpError 422 detail, [])) ∧
    (post_api_leads envNone (.ok ("id-1")) false false payloadNoName).2.contains
        Call.store = false :=
  c3_validation_rejects envNone (.ok ("id-1")) false false payloadNoName (Or.inl rfl)

/-- A lead whose optional `message` field is present but empty. -/
def leadEmptyMessage : Lead :=
  { name := "Alice", phone := "+1555000111", email := none,
    selected_plan := none, message := some (""), source := none }

/-- Counterexample to C7 as stated: for a lead whose `message` is present
but empty, the composed body substitutes the placeholder even though the
field is not absent, so it differs from the body the claim describes. -/
theorem c7_body_format_counterexample :
    notification_text leadEmptyMessage ("lead-1")
      ≠ claimed_notification_text leadEmptyMessage ("lead-1") := by
  decide

/-- C7 (amended): the composed body has the fixed label line and the fields
one per line in the claimed order, with the placeholder (resp. the `web`
default for `source`) substituted when the optional field is absent or is
present but empty. -/
theorem c7_body_format_amended (lead : Lead) (lead_id : String) :
    notification_text lead lead_id = amended_notification_text lead lead_id := by
  cases he : lead.email <;> cases hp : lead.selected_plan <;>
    cases hm : lead.message <;> cases hs : lead.source <;>
    simp [notification_text, amended_notification_text, py_or_str,
      he, hp, hm, hs, ← String.append_assoc]

/-- C8: when the collection-listing probe or the import of the database
module fails, the diagnostics `database` message embeds the exception's
string description truncated to its first 50 characters, hence to a bounded
length of at most 50. -/
theorem c8_error_truncation (env : Env) (nm : Option String) (msg : String) :
    (test_database env (DbProbe.conn { name := nm, listResult := .error msg })).database
      = "⚠️  Connected but Error: " ++ py_take msg 50 ∧
    (test_database env (DbProbe.otherError msg)).database
      = "❌ Error: " ++ py_take msg 50 ∧
    (py_take msg 50).length ≤ 50 := by
  refine ⟨rfl, rfl, ?_⟩
  show (msg.data.take 50).length ≤ 50
  simp

/-- C9: the diagnostics report of provider configuration agrees with the
senders: `email_provider` reads `SendGrid` exactly when the email sender
(with a non-raising provider) returns `true`, and `whatsapp_provider` reads
`Twilio` exactly when the messaging sender (with a non-raising provider)
returns `true`. -/
theorem c9_provider_report_consistency (env : Env) (probe : DbProbe)
    (subject body message : String) :
    ((test_database env probe).email_provider = "✅ SendGrid"
        ↔ (send_email_via_sendgrid env false subject body).returned = true) ∧
    ((test_database env probe).whatsapp_provider = "✅ Twilio"
        ↔ (send_whatsapp_via_twilio env false message).returned = true) := by
  constructor
  · cases h : truthy env.SENDGRID_API_KEY <;>
      simp [test_database, send_email_via_sendgrid, h]
  · cases h1 : truthy env.TWILIO_ACCOUNT_SID <;>
      cases h2 : truthy env.TWILIO_AUTH_TOKEN <;>
      cases h3 : truthy env.TWILIO_WHATSAPP_FROM <;>
      simp [test_database, send_whatsapp_via_twilio, h1, h2, h3]

/-- Witness for C9 at a fully configured environment. -/
theorem c9_provider_report_consistency_witness :
    (test_database envFull DbProbe.importError).email_provider = "✅ SendGrid" ∧
    (test_database envFull DbProbe.importError).whatsapp_provider = "✅ Twilio" :=
  ⟨(c9_provider_report_consistency envFull DbProbe.importError ("s") ("b") ("m")).1.mpr
      rfl,
   (c9_provider_report_consistency envFull DbProbe.importError ("s") ("b") ("m")).2.mpr
      rfl⟩

/-- C10: the diagnostics response never reports more than 10 collection
names, and on a successful listing it holds exactly the first 10 entries of
the backend's result. -/
theorem c10_collections_capped (env : Env) (probe : DbProbe) :
    (test_database env probe).collections.length ≤ 10 ∧
    ∀ nm cols,
      (test_database env (DbProbe.conn { name := nm, listResult := .ok cols })).collections
        = cols.take 10 := by
  constructor
  · cases probe with
    | importError => simp [test_database]
    | otherError msg => simp [test_database]
    | dbNone => simp [test_database]
    | conn c =>
      cases hc : c.listResult with
      | ok cols => simp [test_database, hc]
      | error e => simp [test_database, hc]
  · intro nm cols
    rfl

end LeadIntake
